import Mathlib

/-!
# A shallow embedding of the DhartiQ crop-advisor turn orchestrator

This file embeds, in Lean, the data model (`src/app/models.py`), the context
merge engine, staleness evaluator and routing decision function
(`src/app/graph.py`), the coordinate parser (`src/app/tools.py`), and an
oracle-driven model of the per-turn step executors and orchestration loop.
External effects (LLM calls, HTTP providers, the file system) are represented
by explicit oracle records; everything else is translated directly from the
Python source.  Machine floats are modelled as `Rat`; Python `None` as
`Option`; Python truthiness is made explicit by the helpers below.
-/

namespace DhartiQ

/-! ## Python-style helpers -/

/-- Truthiness of an optional string: Python `None` and `""` are falsy. -/
def strTruthy : Option String → Bool
  | none => false
  | some s => decide (s ≠ "")

/-- Truthiness of an optional float: Python `None` and `0.0` are falsy. -/
def ratTruthy : Option Rat → Bool
  | none => false
  | some x => decide (x ≠ 0)

/-- Python `str.strip()` over the character list (ASCII whitespace).
Implemented structurally so that concrete inputs reduce in the kernel. -/
def trimChars (cs : List Char) : List Char :=
  ((cs.dropWhile Char.isWhitespace).reverse.dropWhile Char.isWhitespace).reverse

/-- Python `str.strip()`. -/
def pyTrim (s : String) : String :=
  String.mk (trimChars s.data)

/-- Python `str.lower()` (ASCII case folding; the source only compares
ASCII data case-insensitively). -/
def pyLower (s : String) : String :=
  String.mk (s.data.map Char.toLower)

/-- `startsWithList pre cs`: `cs` begins with `pre`. -/
def startsWithList : List Char → List Char → Bool
  | [], _ => true
  | _ :: _, [] => false
  | a :: as_, c :: cs => a = c && startsWithList as_ cs

/-- Occurrence of `k` anywhere in `cs` (the Python `k in t` operator). -/
def hasSubList (k : List Char) : List Char → Bool
  | [] => startsWithList k []
  | c :: cs => startsWithList k (c :: cs) || hasSubList k cs

/-- Python `s.split(d)` for a one-character separator (keeps empty parts). -/
def splitOnCharList (d : Char) : List Char → List String
  | [] => [""]
  | c :: cs =>
    if c = d then "" :: splitOnCharList d cs
    else
      match splitOnCharList d cs with
      | s :: rest => (String.mk [c] ++ s) :: rest
      | [] => [String.mk [c]]

/-- Python `s.split("\n")`. -/
def pySplitNl (s : String) : List String :=
  splitOnCharList '\n' s.data

/-- Truthiness of the Python idiom `opt and opt.strip()` on an optional
string: requires a value that is non-empty and non-empty after trimming. -/
def strPresent : Option String → Bool
  | none => false
  | some s => decide (s ≠ "" ∧ pyTrim s ≠ "")

/-- Python `opt or ""` for optional strings. -/
def strOrEmpty : Option String → String
  | none => ""
  | some s => s

/-! ## Data model (`src/app/models.py`) -/

/-- `FarmerContext` from `models.py`. -/
structure FarmerContext where
  farmer_name : Option String := none
  crop : Option String := none
  stage : String := "unknown"
  land_size : Option Rat := none
  land_unit : Option String := none
  location_text : Option String := none
  lat : Option Rat := none
  lon : Option Rat := none
  sowing_date : Option String := none
  irrigation : Option String := none
  soil_type : Option String := none
  notes : Option String := none
  language : String := "en"
  deriving Repr, DecidableEq

/-- `Observation` from `models.py`. -/
structure Observation where
  symptoms : List String := []
  pests_seen : List String := []
  urgency : String := "low"
  deriving Repr, DecidableEq

/-- `WeatherSnapshot` from `models.py`.  The `daily` field (a list of
free-form JSON dicts) is omitted: no code path verified here ever reads it. -/
structure WeatherSnapshot where
  fetched_at_utc : String
  summary : String := ""
  alerts : List String := []
  deriving Repr, DecidableEq

/-- `WebContext` from `models.py`. -/
structure WebContext where
  fetched_at_utc : String
  query : String := ""
  snippets : List String := []
  urls : List String := []
  deriving Repr, DecidableEq

/-- `SchemesContext` from `models.py`. -/
structure SchemesContext where
  fetched_at_utc : String
  query : String := ""
  snippets : List String := []
  urls : List String := []
  deriving Repr, DecidableEq

/-- `MarketContext` from `models.py`. -/
structure MarketContext where
  fetched_at_utc : String
  query : String := ""
  location : Option String := none
  crop : Option String := none
  snippets : List String := []
  urls : List String := []
  deriving Repr, DecidableEq

/-- `ImageAsset` from `models.py`. -/
structure ImageAsset where
  file_path : String
  telegram_file_id : Option String := none
  caption : Option String := none
  created_at_utc : String := ""
  deriving Repr, DecidableEq

/-- `ImageDiagnosis` from `models.py`. -/
structure ImageDiagnosis where
  issue : String
  likely_causes : List String := []
  actions_now : List String := []
  watch_out_for : List String := []
  confidence : String := "medium"
  needs_human_review : Bool := false
  deriving Repr, DecidableEq

/-- `Advisory` from `models.py`. -/
structure Advisory where
  headline : String
  stage : String := "unknown"
  actions_now : List String := []
  watch_out_for : List String := []
  rationale_brief : String := ""
  safety_notes : List String := []
  confidence : String := "medium"
  needs_human_review : Bool := false
  deriving Repr, DecidableEq

/-- One entry of the message log (`{"role": ..., "content": ...}`). -/
structure Message where
  role : String
  content : String
  deriving Repr, DecidableEq

/-- `GraphState` from `models.py`. -/
structure GraphState where
  chat_id : String := ""
  turn_count : Nat := 0
  last_node : Option String := none
  messages : List Message := []
  context : FarmerContext := {}
  observation : Observation := {}
  weather : Option WeatherSnapshot := none
  web : Option WebContext := none
  schemes : Option SchemesContext := none
  market : Option MarketContext := none
  last_image : Option ImageAsset := none
  image_diagnosis : Option ImageDiagnosis := none
  advisory : Option Advisory := none
  deriving Repr, DecidableEq

/-- `GraphState.compact_messages` (`models.py`): keep only the last
`keepLast` entries when the log is longer than that. -/
def compactList (keepLast : Nat) (l : List Message) : List Message :=
  if l.length > keepLast then l.drop (l.length - keepLast) else l

/-- `IntakeExtraction` from `graph.py` (a transient per-turn record). -/
structure IntakeExtraction where
  farmer_name : Option String := none
  land_size : Option Rat := none
  land_unit : Option String := none
  crop : Option String := none
  stage : Option String := none
  location_text : Option String := none
  sowing_date : Option String := none
  irrigation : Option String := none
  soil_type : Option String := none
  notes : Option String := none
  symptoms : List String := []
  pests_seen : List String := []
  urgency : Option String := none
  deriving Repr, DecidableEq

/-! ## Context merge engine (`graph.py`, `_merge_context` / `_merge_observation`) -/

/-- `_ALLOWED_STAGES` from `graph.py`. -/
def allowedStages : List String :=
  ["unknown", "pre_sowing", "sowing", "germination", "vegetative",
   "flowering", "fruiting", "maturity", "harvest", "post_harvest"]

/-- One scalar-string merge rule of `_merge_context`:
`if upd.x and upd.x.strip(): data["x"] = upd.x.strip()`. -/
def mergeStr (old upd : Option String) : Option String :=
  match upd with
  | none => old
  | some s => if s ≠ "" ∧ pyTrim s ≠ "" then some (pyTrim s) else old

/-- The `crop` merge rule of `_merge_context` (trimmed and lower-cased). -/
def mergeCrop (old upd : Option String) : Option String :=
  match upd with
  | none => old
  | some s => if s ≠ "" ∧ pyTrim s ≠ "" then some (pyLower (pyTrim s)) else old

/-- The `stage` merge rule of `_merge_context`: a present value overwrites
only when it is a member of the allowed enumeration. -/
def mergeStage (old : String) (upd : Option String) : String :=
  match upd with
  | none => old
  | some s =>
    if s ≠ "" ∧ pyTrim s ≠ "" then
      let st := pyLower (pyTrim s)
      if st ∈ allowedStages then st else old
    else old

/-- `_merge_context` from `graph.py`.  The Python code round-trips the old
context through `model_dump`/`model_validate`, which is the identity on this
data model, and conditionally overwrites individual keys; this is expressed
here as a per-field record update. -/
def mergeContext (old : FarmerContext) (upd : IntakeExtraction) : FarmerContext :=
  { old with
    farmer_name := mergeStr old.farmer_name upd.farmer_name
    land_size := match upd.land_size with
      | some x => some x
      | none => old.land_size
    land_unit := mergeStr old.land_unit upd.land_unit
    crop := mergeCrop old.crop upd.crop
    stage := mergeStage old.stage upd.stage
    location_text := mergeStr old.location_text upd.location_text
    sowing_date := mergeStr old.sowing_date upd.sowing_date
    irrigation := mergeStr old.irrigation upd.irrigation
    soil_type := mergeStr old.soil_type upd.soil_type
    notes := mergeStr old.notes upd.notes }

/-- The urgency ordinals of `_merge_observation`
(`order = {"low": 0, "medium": 1, "high": 2}`).  Python would raise a
`KeyError` on any other key; theorems that touch the lookup therefore carry
the hypothesis that the stored urgency is one of the three levels. -/
def urgencyOrder : String → Nat
  | "medium" => 1
  | "high" => 2
  | _ => 0

/-- The dedup-append loop of `_merge_observation`: trim each update entry and
append it unless empty or already present case-insensitively. -/
def dedupAppend (start : List String) (ups : List String) : List String :=
  ups.foldl
    (fun acc s =>
      let s := pyTrim s
      if s ≠ "" ∧ acc.all (fun x => pyLower x ≠ pyLower s) then acc ++ [s] else acc)
    start

/-- `_merge_observation` from `graph.py`. -/
def mergeObservation (old : Observation) (upd : IntakeExtraction) : Observation :=
  let symptoms := dedupAppend old.symptoms upd.symptoms
  let pests := dedupAppend old.pests_seen upd.pests_seen
  let urgency :=
    if strTruthy upd.urgency then
      let u := pyLower (pyTrim (strOrEmpty upd.urgency))
      if u ∈ ["low", "medium", "high"] then
        if urgencyOrder u > urgencyOrder old.urgency then u else old.urgency
      else old.urgency
    else old.urgency
  { symptoms := symptoms, pests_seen := pests, urgency := urgency }

/-! ## Timestamp parsing and the staleness evaluator
(`graph.py`, `_parse_iso_dt` / `_is_*_stale`)

`_parse_iso_dt` calls `datetime.fromisoformat` and returns `None` on failure.
The snapshots of this system are always stamped by `_utc_now_iso()`
(`models.py`), i.e. `YYYY-MM-DDTHH:MM:SS+HH:MM`; the parser below accepts
exactly that canonical shape (offset-aware, seconds precision) and converts it
to an absolute count of UTC seconds.  Any other string is treated as a parse
failure.  Clock reads (`_utc_now()`) are modelled by an explicit `now`
argument in the same scale. -/

/-- The numeric value of a run of ASCII digits. -/
def digitsToNat (cs : List Char) : Nat :=
  cs.foldl (fun a c => a * 10 + (c.toNat - 48)) 0

/-- Read exactly `n` ASCII digits from the front of a character list. -/
def readDigits (n : Nat) (cs : List Char) : Option (Nat × List Char) :=
  let d := cs.take n
  if d.length = n ∧ d.all Char.isDigit then some (digitsToNat d, cs.drop n) else none

/-- Expect a single literal character. -/
def readChar (c : Char) : List Char → Option (List Char)
  | x :: xs => if x = c then some xs else none
  | [] => none

/-- Gregorian leap year. -/
def isLeap (y : Nat) : Bool :=
  (y % 4 = 0 && y % 100 ≠ 0) || y % 400 = 0

/-- Days in a Gregorian month. -/
def daysInMonth (y m : Nat) : Nat :=
  if m = 2 then (if isLeap y then 29 else 28)
  else if m ∈ [4, 6, 9, 11] then 30 else 31

/-- Days in all Gregorian years before year `y` (year numbers start at 1). -/
def daysBeforeYear (y : Nat) : Nat :=
  (y - 1) * 365 + (y - 1) / 4 - (y - 1) / 100 + (y - 1) / 400

/-- Days in the months of year `y` before month `m`. -/
def daysBeforeMonth (y m : Nat) : Nat :=
  (List.range (m - 1)).foldl (fun a i => a + daysInMonth y (i + 1)) 0

/-- Seconds from the epoch of this model (year 1) to the given civil time. -/
def civilSeconds (y m d h mi se : Nat) : Int :=
  ((daysBeforeYear y + daysBeforeMonth y m + (d - 1)) * 86400 + h * 3600 + mi * 60 + se : Nat)

/-- `_parse_iso_dt` (`graph.py`), restricted to the canonical offset-aware
format written by `_utc_now_iso`: returns the absolute UTC second count, or
`none` when the string does not parse. -/
def parseIsoDt (s : String) : Option Int :=
  match readDigits 4 s.data with
  | none => none
  | some (y, r) =>
    match readChar '-' r with
    | none => none
    | some r =>
      match readDigits 2 r with
      | none => none
      | some (mo, r) =>
        match readChar '-' r with
        | none => none
        | some r =>
          match readDigits 2 r with
          | none => none
          | some (d, r) =>
            match readChar 'T' r with
            | none => none
            | some r =>
              match readDigits 2 r with
              | none => none
              | some (h, r) =>
                match readChar ':' r with
                | none => none
                | some r =>
                  match readDigits 2 r with
                  | none => none
                  | some (mi, r) =>
                    match readChar ':' r with
                    | none => none
                    | some r =>
                      match readDigits 2 r with
                      | none => none
                      | some (se, r) =>
                        match r with
                        | sign :: r =>
                          if sign = '+' ∨ sign = '-' then
                            match readDigits 2 r with
                            | none => none
                            | some (oh, r) =>
                              match readChar ':' r with
                              | none => none
                              | some r =>
                                match readDigits 2 r with
                                | none => none
                                | some (om, r) =>
                                  if r = [] ∧ 1 ≤ y ∧ 1 ≤ mo ∧ mo ≤ 12 ∧
                                      1 ≤ d ∧ d ≤ daysInMonth y mo ∧
                                      h ≤ 23 ∧ mi ≤ 59 ∧ se ≤ 59 ∧ oh ≤ 23 ∧ om ≤ 59 then
                                    let off : Int := (oh * 3600 + om * 60 : Nat)
                                    some (civilSeconds y mo d h mi se -
                                          (if sign = '-' then -off else off))
                                  else none
                          else none
                        | [] => none

/-- `_is_weather_stale` (`graph.py`): absent snapshot, unparsable timestamp,
or age strictly greater than `maxAgeHours` (default `6`). -/
def isWeatherStale (s : GraphState) (now : Int) (maxAgeHours : Int := 6) : Bool :=
  match s.weather with
  | none => true
  | some w =>
    match parseIsoDt w.fetched_at_utc with
    | none => true
    | some t => decide (now - t > maxAgeHours * 3600)

/-- `_is_web_stale` (`graph.py`), default threshold 24 hours. -/
def isWebStale (s : GraphState) (now : Int) (maxAgeHours : Int := 24) : Bool :=
  match s.web with
  | none => true
  | some w =>
    match parseIsoDt w.fetched_at_utc with
    | none => true
    | some t => decide (now - t > maxAgeHours * 3600)

/-- `_is_schemes_stale` (graph.py), default threshold 7 days. -/
def isSchemesStale (s : GraphState) (now : Int) (maxAgeDays : Int := 7) : Bool :=
  match s.schemes with
  | none => true
  | some w =>
    match parseIsoDt w.fetched_at_utc with
    | none => true
    | some t => decide (now - t > maxAgeDays * 86400)

/-- `_is_market_stale` (`graph.py`), default threshold 12 hours. -/
def isMarketStale (s : GraphState) (now : Int) (maxAgeHours : Int := 12) : Bool :=
  match s.market with
  | none => true
  | some w =>
    match parseIsoDt w.fetched_at_utc with
    | none => true
    | some t => decide (now - t > maxAgeHours * 3600)

/-! ## Action markers and message inspection (`graph.py`) -/

/-- `ACTION_PREFIX` (the common start of every action marker). -/
def actionMarkerStart : String := "__ACTION__:"

/-- `ACTION_SCHEMES`. -/
def ACTION_SCHEMES : String := "__ACTION__:SCHEMES"

/-- `ACTION_MARKET`. -/
def ACTION_MARKET : String := "__ACTION__:MARKET"

/-- `ACTION_DIGEST`. -/
def ACTION_DIGEST : String := "__ACTION__:DIGEST"

/-- `ACTION_CROP_RECO`. -/
def ACTION_CROP_RECO : String := "__ACTION__:CROP_RECO"

/-- `ACTION_BUY`. -/
def ACTION_BUY : String := "__ACTION__:BUY"

/-- `_last_user_text`: the content of the most recent `"user"` message,
trimmed; `""` when there is none. -/
def lastUserText (s : GraphState) : String :=
  match s.messages.reverse.find? (fun m => m.role == "user") with
  | some m => pyTrim m.content
  | none => ""

/-- `_is_action_message`. -/
def isActionMessage (text : String) : Bool :=
  text ≠ "" && startsWithList actionMarkerStart.data text.data

/-- Substring test, modelling the Python `k in t` operator (for non-empty
`k`). -/
def containsSub (t k : String) : Bool :=
  hasSubList k.data t.data

/-! ### The deterministic stage-update patterns

`_STAGE_UPDATE_RE` is the anchored, case-insensitive regex
`^\s*my\s+stage\s+is\s+([a-z_]+)\.?\s*$` and `_STAGE_INLINE_RE` is
`^\s*stage\s*:\s*([a-z_]+)\s*$`.  They are implemented below as direct
scanners over the character list. -/

/-- Drop leading whitespace (regex `\s*`). -/
def skipWs (cs : List Char) : List Char :=
  cs.dropWhile Char.isWhitespace

/-- Require at least one whitespace character, then drop the rest
(regex `\s+`). -/
def skipWs1 : List Char → Option (List Char)
  | c :: cs => if c.isWhitespace then some (skipWs cs) else none
  | [] => none

/-- Match a literal word case-insensitively. -/
def matchCI : List Char → List Char → Option (List Char)
  | [], cs => some cs
  | _ :: _, [] => none
  | a :: as_, c :: cs => if c.toLower = a then matchCI as_ cs else none

/-- A character of the capture group `[a-z_]+` under `re.IGNORECASE`. -/
def isStageChar (c : Char) : Bool :=
  c.isAlpha || c = '_'

/-- `_STAGE_UPDATE_RE.match`: returns the captured group. -/
def stagePatLong (cs : List Char) : Option String :=
  let cs := skipWs cs
  (matchCI "my".data cs).bind fun cs =>
  (skipWs1 cs).bind fun cs =>
  (matchCI "stage".data cs).bind fun cs =>
  (skipWs1 cs).bind fun cs =>
  (matchCI "is".data cs).bind fun cs =>
  (skipWs1 cs).bind fun cs =>
  let g := cs.takeWhile isStageChar
  let rest := cs.dropWhile isStageChar
  if g = [] then none
  else
    let rest := match rest with
      | '.' :: r => r
      | r => r
    if skipWs rest = [] then some (String.mk g) else none

/-- `_STAGE_INLINE_RE.match`: returns the captured group. -/
def stagePatInline (cs : List Char) : Option String :=
  let cs := skipWs cs
  (matchCI "stage".data cs).bind fun cs =>
  let cs := skipWs cs
  (readChar ':' cs).bind fun cs =>
  let cs := skipWs cs
  let g := cs.takeWhile isStageChar
  let rest := cs.dropWhile isStageChar
  if g = [] then none
  else if skipWs rest = [] then some (String.mk g) else none

/-- `_extract_stage_from_text` (`graph.py`). -/
def extractStageFromText (text : String) : Option String :=
  if text = "" then none
  else
    match stagePatLong text.data <|> stagePatInline text.data with
    | none => none
    | some g =>
      let stage := pyLower (pyTrim g)
      if stage ∈ allowedStages then some stage else none

/-- `_is_stage_update_message` (`graph.py`). -/
def isStageUpdateMessage (text : String) : Bool :=
  (extractStageFromText text).isSome

/-- `_user_wants_crop_reco` (`graph.py`).  Note the source compares the
lower-cased text with the upper-case marker, so that comparison can never
succeed; it is kept verbatim. -/
def userWantsCropReco (text : String) : Bool :=
  if text = "" then false
  else
    let t := pyLower (pyTrim text)
    if t = ACTION_CROP_RECO then true
    else if ["recommend crop", "suggest crop", "which crop", "what crop",
             "crop suggestion", "crop recommendations"].any (containsSub t) then true
    else if ["कौन सी फसल", "फसल सुझाव", "फसल बताओ", "फसल recommend"].any (containsSub t) then true
    else if ["कोणते पीक", "पीक सुचवा", "पीक recommendation", "पीक सुचना"].any (containsSub t) then true
    else false

/-- `_wants_schemes` (`graph.py`). -/
def wantsSchemes (s : GraphState) : Bool :=
  lastUserText s = ACTION_SCHEMES ∨ lastUserText s = ACTION_DIGEST

/-- `_wants_market` (`graph.py`). -/
def wantsMarket (s : GraphState) : Bool :=
  lastUserText s = ACTION_MARKET ∨ lastUserText s = ACTION_DIGEST

/-- `_wants_buy` (`graph.py`). -/
def wantsBuy (s : GraphState) : Bool :=
  lastUserText s = ACTION_BUY

/-! ## Routing decision function (`graph.py`, `_route`) -/

/-- `_needs_profile_questions` (`graph.py`). -/
def needsProfileQuestions (s : GraphState) : Bool :=
  let c := s.context
  !strTruthy c.farmer_name ||
  (!(ratTruthy c.lat && ratTruthy c.lon) && !strPresent c.location_text) ||
  !strTruthy c.crop ||
  c.stage == "unknown" ||
  c.land_size.isNone

/-- `_has_location` (`graph.py`).  Note the Python truthiness: a latitude or
longitude equal to `0.0` does not count. -/
def hasLocation (s : GraphState) : Bool :=
  (ratTruthy s.context.lat && ratTruthy s.context.lon) || strPresent s.context.location_text

/-- `_route` (`graph.py`): the fixed priority list over the current state.
The clock read of the staleness checks is the explicit `now`. -/
def route (s : GraphState) (now : Int) : String :=
  let c := s.context
  let lastUser := lastUserText s
  if lastUser = ACTION_BUY then "buy"
  else if lastUser = ACTION_CROP_RECO ∧ hasLocation s then "crop_reco"
  else if isStageUpdateMessage lastUser then "advice"
  else if !strTruthy c.crop ∧ hasLocation s ∧ lastUser ≠ ACTION_DIGEST then
    (if s.last_node ≠ some "crop_reco" ∨ userWantsCropReco lastUser then "crop_reco" else "ask")
  else if s.last_image.isSome ∧ s.image_diagnosis.isNone then "vision"
  else if needsProfileQuestions s ∧ lastUser ≠ ACTION_DIGEST then "ask"
  else if ratTruthy c.lat ∧ ratTruthy c.lon ∧ isWeatherStale s now then "weather"
  else if (s.observation.symptoms ≠ [] ∧ isWebStale s now) ∨
          (lastUser = ACTION_DIGEST ∧ isWebStale s now) then "web"
  else if wantsSchemes s ∧ isSchemesStale s now then "schemes"
  else if wantsMarket s ∧ isMarketStale s now then "market"
  else "advice"

/-- The terminal steps of the compiled graph: their nodes edge to `END`
(`_build_compiled_graph`); the non-terminal ones edge back to `plan`. -/
def isTerminalStep (n : String) : Bool :=
  n = "ask" || n = "crop_reco" || n = "buy" || n = "advice"

/-! ## Untrusted JSON values and the response coercion layer
(`models.py`, `safe_parse_advisory`; `graph.py`, `_split_lines_to_list`,
`_coerce_image_diagnosis`)

The coercers receive Python dicts produced by `json.loads`.  Such values are
modelled by `JVal`; a dict is a key-to-value association list (first binding
wins, as Python dict keys are unique). -/

/-- A JSON value as produced by `json.loads`. -/
inductive JVal where
  | jnull : JVal
  | jbool : Bool → JVal
  | jnum : Rat → JVal
  | jstr : String → JVal
  | jarr : List JVal → JVal
  | jobj : List (String × JVal) → JVal

/-- Python truthiness of a JSON value. -/
def jTruthy : JVal → Bool
  | .jnull => false
  | .jbool b => b
  | .jnum q => decide (q ≠ 0)
  | .jstr s => decide (s ≠ "")
  | .jarr xs => !xs.isEmpty
  | .jobj fs => !fs.isEmpty

/-- Python `str(v)` on a JSON value.  Scalars follow Python exactly; for
containers (and for the textual form of floats) Python produces a full
`repr`, abbreviated here because no verified property ever inspects the
rendered text of a non-string value. -/
def pyStr : JVal → String
  | .jnull => "None"
  | .jbool b => if b then "True" else "False"
  | .jnum q => toString q
  | .jstr s => s
  | .jarr _ => "[list]"
  | .jobj _ => "[dict]"

/-- `data.get(k)` on a modelled dict. -/
def jGet (data : List (String × JVal)) (k : String) : Option JVal :=
  (data.find? (fun kv => kv.1 == k)).map (·.2)

/-- `data.get(k) or dflt`: the stored value when present and truthy,
otherwise the default. -/
def jGetOr (data : List (String × JVal)) (k : String) (dflt : JVal) : JVal :=
  match jGet data k with
  | some v => if jTruthy v then v else dflt
  | none => dflt

/-- The list normalisation shared by the three advisory list fields of
`safe_parse_advisory`: a string is split on newlines, a list is kept, and
anything else becomes `[]`; entries are stringified, trimmed and non-empty
ones kept. -/
def advisoryListField (v : JVal) : List String :=
  match v with
  | .jstr s => ((((pySplitNl s).map pyTrim).filter (· ≠ "")).map pyTrim).filter (· ≠ "")
  | .jarr xs => ((xs.map pyStr).map pyTrim).filter (· ≠ "")
  | _ => []

/-- `safe_parse_advisory` (`models.py`).  The Python function raises only on
a non-dict argument; on dicts (this model) it is total. -/
def safeParseAdvisory (data : List (String × JVal)) : Advisory :=
  let headline0 := pyTrim (pyStr (jGetOr data "headline" (.jstr "")))
  let headline := if headline0 = "" then "Advisory update" else headline0
  let stage := pyLower (pyTrim (pyStr (jGetOr data "stage" (.jstr "unknown"))))
  let actions := (advisoryListField (jGetOr data "actions_now" (.jarr []))).take 5
  let watch := (advisoryListField (jGetOr data "watch_out_for" (.jarr []))).take 3
  let conf0 := pyLower (pyTrim (pyStr (jGetOr data "confidence" (.jstr "medium"))))
  let conf := if conf0 = "low" ∨ conf0 = "medium" ∨ conf0 = "high" then conf0 else "medium"
  let needs : Bool :=
    match jGet data "needs_human_review" with
    | some (.jstr s) =>
      pyLower (pyTrim s) = "true" ∨ pyLower (pyTrim s) = "yes" ∨ pyLower (pyTrim s) = "1"
    | some (.jbool b) => b
    | _ => false
  let rationale0 := pyTrim (pyStr (jGetOr data "rationale_brief" (.jstr "")))
  let rationale :=
    if rationale0.length > 220 then String.mk (rationale0.data.take 220) else rationale0
  let safety := (advisoryListField (jGetOr data "safety_notes" (.jarr []))).take 2
  { headline := headline
    stage := if stage = "" then "unknown" else stage
    actions_now := actions
    watch_out_for := watch
    rationale_brief := rationale
    safety_notes := safety
    confidence := conf
    needs_human_review := needs }

/-- A delimiter of `_split_lines_to_list` (the regex class in
`[\n•\-]+`). -/
def isBulletDelim (c : Char) : Bool :=
  c = '\n' || c = '•' || c = '-'

/-- Split a character list on maximal runs of delimiter characters, with the
empty leading/trailing parts Python `re.split` produces.  The right fold
carries the segments to the right plus a flag recording whether the character
immediately to the right was a delimiter (to collapse delimiter runs). -/
def splitRuns (p : Char → Bool) (cs : List Char) : List String :=
  (cs.foldr
    (fun c acc =>
      let (segs, delimRight) := acc
      if p c then
        if delimRight then (segs, true) else ("" :: segs, true)
      else
        match segs with
        | s :: rest => ((String.mk [c] ++ s) :: rest, false)
        | [] => ([String.mk [c]], false))
    ([""], false)).1

/-- `_split_lines_to_list` (`graph.py`): `None` becomes `[]`; a list is
stringified, trimmed and filtered; a string is split on runs of
newline/bullet/hyphen and trimmed; anything else becomes `[]`. -/
def splitLinesToList (v : JVal) : List String :=
  match v with
  | .jarr xs => ((xs.map pyStr).map pyTrim).filter (· ≠ "")
  | .jstr s => ((splitRuns isBulletDelim (trimChars s.data)).map pyTrim).filter (· ≠ "")
  | _ => []

/-- `_coerce_image_diagnosis` (`graph.py`). -/
def coerceImageDiagnosis (data : List (String × JVal)) : ImageDiagnosis :=
  let issueKeys := ["issue", "problem", "disease", "diagnosis", "issue_detected", "observation"]
  let issue0 := issueKeys.findSome? fun k =>
    match jGet data k with
    | some (.jstr v) => if pyTrim v ≠ "" then some (pyTrim v) else none
    | _ => none
  let issue :=
    match issue0 with
    | some v => v
    | none => "Unclear issue from image (needs clearer photo or more details)."
  let likely_causes :=
    (splitLinesToList (jGetOr data "likely_causes" (jGetOr data "causes" .jnull))).take 3
  let actions_now :=
    (splitLinesToList (jGetOr data "actions_now"
      (jGetOr data "actions" (jGetOr data "remedy" .jnull)))).take 3
  let watch_out_for :=
    (splitLinesToList (jGetOr data "watch_out_for"
      (jGetOr data "precautions" (jGetOr data "watch" .jnull)))).take 2
  let conf0 := pyLower (pyTrim (pyStr (jGetOr data "confidence" (.jstr "medium"))))
  let conf := if conf0 = "low" ∨ conf0 = "medium" ∨ conf0 = "high" then conf0 else "medium"
  let needs : Bool :=
    match jGet data "needs_human_review" with
    | some (.jstr s) =>
      pyLower (pyTrim s) = "true" ∨ pyLower (pyTrim s) = "yes" ∨ pyLower (pyTrim s) = "1"
    | some (.jbool b) => b
    | _ => false
  { issue := issue
    likely_causes := likely_causes
    actions_now := actions_now
    watch_out_for := watch_out_for
    confidence := conf
    needs_human_review := needs }

/-! ## Coordinate extraction (`tools.py`, `extract_lat_lon`)

`_LATLON_RE` is the search pattern
`(-?\d{1,3}(?:\.\d+)?)\s*[, ]\s*(-?\d{1,3}(?:\.\d+)?)`.
The model below enumerates, at each start position, the alternatives of the
pattern in the backtracking order Python tries them (greedy quantifiers
first), and yields the first full match.  Matched numerals go through exact
rational evaluation in place of Python `float`. -/

/-- The longest run of leading ASCII digits, together with the remainder. -/
def takeDigitRun (cs : List Char) : List Char × List Char :=
  (cs.takeWhile Char.isDigit, cs.dropWhile Char.isDigit)

/-- The value of an integer digit run together with a fraction digit run,
as an exact rational. -/
def fracValue (ip fp : List Char) : Rat :=
  (digitsToNat ip : Rat) + (digitsToNat fp : Rat) / ((10 : Rat) ^ fp.length)

/-- Alternatives for `\d{1,3}(?:\.\d+)?` at the head of the input, greedy
first: integer widths 3, 2, 1, and for each, the fraction present (taking all
its digits first) before the fraction absent. -/
def unsignedNumAlts (cs : List Char) : List (Rat × List Char) :=
  let (run, rest0) := takeDigitRun cs
  ([3, 2, 1].filter (· ≤ run.length)).flatMap fun w =>
    let ip := run.take w
    let rem := run.drop w ++ rest0
    let withFrac :=
      match rem with
      | '.' :: r2 =>
        let (fr, r3) := takeDigitRun r2
        ((List.range fr.length).map (fun k => fr.length - k)).map fun j =>
          (fracValue ip (fr.take j), fr.drop j ++ r3)
      | _ => []
    withFrac ++ [((digitsToNat ip : Rat), rem)]

/-- Alternatives for `-?\d{1,3}(?:\.\d+)?` (the optional sign consumed
first when present). -/
def signedNumAlts (cs : List Char) : List (Rat × List Char) :=
  match cs with
  | '-' :: r => (unsignedNumAlts r).map fun (q, rem) => (-q, rem)
  | _ => unsignedNumAlts cs

/-- Alternatives for the separator `\s*[, ]\s*`: remainders after consuming
it, in greedy backtracking order. -/
def sepAlts (cs : List Char) : List (List Char) :=
  let ws := cs.takeWhile Char.isWhitespace
  let rest := cs.dropWhile Char.isWhitespace
  (((List.range (ws.length + 1)).map (fun k => ws.length - k)).filterMap fun k =>
    match ws.drop k ++ rest with
    | c :: r => if c = ',' ∨ c = ' ' then some r else none
    | [] => none).map fun r => r.dropWhile Char.isWhitespace

/-- A full pattern match anchored at the current position, if any. -/
def matchLatLonAt (cs : List Char) : Option (Rat × Rat) :=
  (signedNumAlts cs).findSome? fun (lat, r1) =>
    (sepAlts r1).findSome? fun r2 =>
      (signedNumAlts r2).findSome? fun (lon, _) => some (lat, lon)

/-- `re.search`: try every start position, leftmost match wins. -/
def searchLatLon : List Char → Option (Rat × Rat)
  | [] => none
  | c :: cs =>
    match matchLatLonAt (c :: cs) with
    | some x => some x
    | none => searchLatLon cs

/-- `extract_lat_lon` (`tools.py`): search the trimmed text, then keep the
pair only when both coordinates lie in range. -/
def extractLatLon (text : String) : Option Rat × Option Rat :=
  if text = "" then (none, none)
  else
    match searchLatLon (trimChars text.data) with
    | none => (none, none)
    | some (lat, lon) =>
      if -90 ≤ lat ∧ lat ≤ 90 ∧ -180 ≤ lon ∧ lon ≤ 180 then (some lat, some lon)
      else (none, none)

/-! ## Step executors and the turn loop
(`graph.py`, `_build_compiled_graph` / `CropAdvisorGraph.run_turn`)

Each LangGraph node works on a deep copy of the graph state and returns a
partial update naming only some fields; LangGraph overwrites exactly those
fields.  Every node below therefore returns the successor state, assigning
precisely the fields of the corresponding Python return dict.  External
calls are oracles: `none` models a raised `ToolError` or failed model call,
`some` a successful result; oracle answers are fixed for the turn being
modelled, and prompt-only intermediate data (LLM prompt text, the soil-pH
snippet search of `crop_reco_node`) that never reaches the state is not
represented. -/

/-- Answers of the external world for one modelled turn. -/
structure ToolOracle where
  geocodeRes : String → Option (Option Rat × Option Rat × String) := fun _ => none
  weatherRes : Rat → Rat → Option WeatherSnapshot := fun _ _ => none
  webRes : String → String → Option WebContext := fun _ _ => none
  schemesRes : String → Option String → Option SchemesContext := fun _ _ => none
  marketRes : String → Option String → Option MarketContext := fun _ _ => none
  buyRes : String → String → Option WebContext := fun _ _ => none
  visionRes : Option (List (String × JVal)) := none
  intakeRes : Option IntakeExtraction := none
  cropRecoJson : Option (List (String × JVal)) := none
  adviceJson : Option (List (String × JVal)) := none

/-- `GraphState.add_user` (`models.py`). -/
def addUser (s : GraphState) (text : String) : GraphState :=
  { s with messages := s.messages ++ [{ role := "user", content := text }] }

/-- `GraphState.add_assistant` (`models.py`). -/
def addAssistant (s : GraphState) (text : String) : GraphState :=
  { s with messages := s.messages ++ [{ role := "assistant", content := text }] }

/-- The opportunistic lat/lon injection of `intake_node`: when the text
yields both coordinates, each is written via `ctx.get(k) or v`, i.e. only
when the stored value is falsy (`None` or `0.0`). -/
def injectLatLon (c : FarmerContext) (text : String) : FarmerContext :=
  match extractLatLon text with
  | (some la, some lo) =>
    { c with lat := if ratTruthy c.lat then c.lat else some la
             lon := if ratTruthy c.lon then c.lon else some lo }
  | _ => c

/-- `intake_node` (`graph.py`): deterministic stage shortcut, action-marker
skip, lat/lon injection, then extraction and merge (`intakeRes = none`
models an extraction failure, which keeps context and observation). -/
def intakeNode (ora : ToolOracle) (state : GraphState) : GraphState :=
  let lastUser := lastUserText state
  match extractStageFromText lastUser with
  | some st =>
    { state with context := { state.context with stage := st }, last_node := some "intake" }
  | none =>
    if isActionMessage lastUser then
      { state with last_node := some "intake" }
    else
      let ctx := injectLatLon state.context lastUser
      match ora.intakeRes with
      | none =>
        { state with context := ctx, last_node := some "intake" }
      | some upd =>
        { state with context := mergeContext ctx upd
                     observation := mergeObservation state.observation upd
                     last_node := some "intake" }

/-- `ask_node` (`graph.py`): pick the first missing-profile question, append
it, compact, clear the advisory. -/
def askNode (state : GraphState) : GraphState :=
  let c := state.context
  let lang := c.language
  let msg :=
    if !strTruthy c.farmer_name then
      (if lang = "en" then "Name?" else if lang = "hi" then "नाम?" else "नाव?")
    else if !(ratTruthy c.lat && ratTruthy c.lon) && !strPresent c.location_text then
      (if lang = "en" then "Location (city/village or lat,lon)?"
       else if lang = "hi" then "स्थान (गांव/शहर या lat,lon)?"
       else "ठिकाण (गाव/शहर किंवा lat,lon)?")
    else if !strTruthy c.crop then
      (if lang = "en" then "Pick one crop from the suggestions (reply: Crop: ___)."
       else if lang = "hi" then "सुझाव से एक फसल चुनें (उत्तर: Crop: ___)."
       else "सुचनांमधून एक पीक निवडा (उत्तर: Crop: ___).")
    else if c.stage = "unknown" then
      (if lang = "en" then "Stage? (sowing/germination/vegetative/flowering/fruiting/maturity/harvest)"
       else if lang = "hi" then "चरण? (बुवाई/अंकुरण/वृद्धि/फूल/फल/पकना/कटाई)"
       else "अवस्था? (पेरणी/अंकुरण/वाढ/फुलोरा/फळ/पक्वता/कापणी)")
    else if c.land_size.isNone then
      (if lang = "en" then "Land size? (acres/hectare)"
       else if lang = "hi" then "जमीन? (एकड़/हेक्टेयर)" else "जमीन? (एकर/हेक्टर)")
    else
      (if lang = "en" then "Send symptoms or photo."
       else if lang = "hi" then "लक्षण या फोटो भेजें।" else "लक्षणं किंवा फोटो पाठवा.")
  { state with messages := compactList 16 (addAssistant state msg).messages
               last_node := some "ask"
               advisory := none }

/-- `_t` (`graph.py`): language selection with English default. -/
def tSel (lang en hi mr : String) : String :=
  if lang = "hi" then hi else if lang = "mr" then mr else en

/-- Python `str.title()`. -/
def pyTitle (s : String) : String :=
  String.mk ((s.data.foldl
    (fun (acc : List Char × Bool) c =>
      let c2 := if c.isAlpha then (if acc.2 then c.toLower else c.toUpper) else c
      (acc.1 ++ [c2], c.isAlpha))
    ([], false)).1)

/-- Python `f"{x:.4f}"` as used for coordinate location strings.  The
rendered text only feeds provider queries and headlines and is never
inspected by a verified property, so the exact decimal formatting is not
reproduced. -/
def fmtCoord (q : Rat) : String :=
  toString q.num ++ "/" ++ toString q.den

/-- `weather_node` (`graph.py`): optional geocoding, then the weather
provider; on provider failure the previous snapshot is kept. -/
def weatherNode (ora : ToolOracle) (state : GraphState) : GraphState :=
  let c := state.context
  let ctx2 :=
    if !(ratTruthy c.lat && ratTruthy c.lon) && strTruthy c.location_text then
      match ora.geocodeRes (strOrEmpty c.location_text) with
      | some (some la, some lo, resolved) =>
        { c with lat := some la, lon := some lo, location_text := some resolved }
      | _ => c
    else c
  if !(ratTruthy ctx2.lat && ratTruthy ctx2.lon) then
    { state with context := ctx2, last_node := some "weather" }
  else
    match ora.weatherRes (ctx2.lat.getD 0) (ctx2.lon.getD 0) with
    | some snap => { state with weather := some snap, context := ctx2, last_node := some "weather" }
    | none => { state with context := ctx2, last_node := some "weather" }

/-- The query string built by `web_node`. -/
def webQuery (s : GraphState) : String :=
  let crop := strOrEmpty s.context.crop
  let stage := s.context.stage
  let loc := pyTrim (strOrEmpty s.context.location_text)
  let symptoms :=
    if s.observation.symptoms.isEmpty then ""
    else String.intercalate ", " (s.observation.symptoms.take 2)
  if crop = "" then
    pyTrim ("best farming practices " ++ loc ++ " seasonal crops kharif rabi soil pH")
  else
    pyTrim (crop ++ " " ++ stage ++ " symptoms " ++ symptoms ++ " best practice " ++ loc)

/-- `web_node` (`graph.py`). -/
def webNode (ora : ToolOracle) (state : GraphState) : GraphState :=
  match ora.webRes (webQuery state) "month" with
  | some ctx => { state with web := some ctx, last_node := some "web" }
  | none => { state with last_node := some "web" }

/-- `schemes_node` (`graph.py`): skipped entirely without a location text. -/
def schemesNode (ora : ToolOracle) (state : GraphState) : GraphState :=
  if !strTruthy state.context.location_text then
    { state with last_node := some "schemes" }
  else
    match ora.schemesRes (strOrEmpty state.context.location_text) state.context.crop with
    | some ctx => { state with schemes := some ctx, last_node := some "schemes" }
    | none => { state with last_node := some "schemes" }

/-- `market_node` (`graph.py`). -/
def marketNode (ora : ToolOracle) (state : GraphState) : GraphState :=
  match ora.marketRes (strOrEmpty state.context.location_text) state.context.crop with
  | some ctx => { state with market := some ctx, last_node := some "market" }
  | none => { state with last_node := some "market" }

/-- `vision_node` (`graph.py`): without a pending image, or on any failure
(unreadable file, failed model call), the diagnosis channel is set to
`None`; on success the raw JSON goes through the image coercer. -/
def visionNode (ora : ToolOracle) (state : GraphState) : GraphState :=
  match state.last_image with
  | none => { state with image_diagnosis := none, last_node := some "vision" }
  | some _ =>
    match ora.visionRes with
    | some raw =>
      { state with image_diagnosis := some (coerceImageDiagnosis raw), last_node := some "vision" }
    | none => { state with image_diagnosis := none, last_node := some "vision" }

/-- `advice_node` (`graph.py`): on generation success append the headline
and compact; on failure append the fixed fallback text (the source performs
no compaction on this path) and clear the advisory. -/
def adviceNode (ora : ToolOracle) (state : GraphState) : GraphState :=
  match ora.adviceJson with
  | some data =>
    let adv := safeParseAdvisory data
    { state with advisory := some adv
                 messages := compactList 16 (addAssistant state adv.headline).messages
                 last_node := some "advice" }
  | none =>
    { state with
        messages := (addAssistant state "Send crop + stage + location (or upload a clear photo).").messages
        advisory := none
        last_node := some "advice" }

/-- `crop_reco_node` (`graph.py`): optional geocoding, optional weather
refresh, crop-suitability web search, then advisory generation.  The failure
return dict of the source names only `messages`/`advisory`/`last_node`, so
the geocode/weather/web updates of the working copy are dropped on that
path, and the source performs no compaction there. -/
def cropRecoNode (ora : ToolOracle) (now : Int) (state : GraphState) : GraphState :=
  let c0 := state.context
  let ctx2 :=
    if !(ratTruthy c0.lat && ratTruthy c0.lon) && strTruthy c0.location_text then
      match ora.geocodeRes (strOrEmpty c0.location_text) with
      | some (some la, some lo, resolved) =>
        { c0 with lat := some la, lon := some lo, location_text := some resolved }
      | _ => c0
    else c0
  let locText0 := pyTrim (strOrEmpty ctx2.location_text)
  let locText :=
    if locText0 = "" ∧ ratTruthy ctx2.lat ∧ ratTruthy ctx2.lon then
      fmtCoord (ctx2.lat.getD 0) ++ "," ++ fmtCoord (ctx2.lon.getD 0)
    else locText0
  let weather2 :=
    if ratTruthy ctx2.lat ∧ ratTruthy ctx2.lon ∧ isWeatherStale state now then
      match ora.weatherRes (ctx2.lat.getD 0) (ctx2.lon.getD 0) with
      | some snap => some snap
      | none => state.weather
    else state.weather
  let web2 :=
    match ora.webRes ("best crops suitable for climate in " ++ locText ++ " India") "year" with
    | some ctx => some ctx
    | none => state.web
  match ora.cropRecoJson with
  | none =>
    { state with
        messages := (addAssistant state "Share location and ask: recommend crops.").messages
        advisory := none
        last_node := some "crop_reco" }
  | some data =>
    let adv := safeParseAdvisory data
    { state with context := ctx2
                 weather := weather2
                 web := web2
                 advisory := some adv
                 messages := compactList 16 (addAssistant state adv.headline).messages
                 last_node := some "crop_reco" }

/-- `buy_node` (`graph.py`): fully deterministic given the provider
answer; emits a guidance advisory when crop or location is missing, a retry
advisory on provider failure, and otherwise buckets the first six links
two-at-a-time under seed/fertilizer/protection labels. -/
def buyNode (ora : ToolOracle) (state : GraphState) : GraphState :=
  let lang := state.context.language
  let crop := pyLower (pyTrim (strOrEmpty state.context.crop))
  let loc0 := pyTrim (strOrEmpty state.context.location_text)
  let loc :=
    if loc0 = "" ∧ ratTruthy state.context.lat ∧ ratTruthy state.context.lon then
      fmtCoord (state.context.lat.getD 0) ++ "," ++ fmtCoord (state.context.lon.getD 0)
    else loc0
  let stageOr := if state.context.stage ≠ "" then state.context.stage else "pre_sowing"
  let finish := fun (data : List (String × JVal)) =>
    let adv := safeParseAdvisory data
    { state with advisory := some adv
                 messages := compactList 16 (addAssistant state adv.headline).messages
                 last_node := some "buy" }
  if crop = "" then
    finish
      [("headline", .jstr (tSel lang
          "Set crop first (reply: Crop: rice) then tap Buy Inputs."
          "पहले फसल सेट करें (उत्तर: Crop: rice) फिर खरीद लिंक दबाएँ।"
          "आधी पीक सेट करा (उत्तर: Crop: rice) मग खरेदी लिंक दाबा.")),
       ("stage", .jstr stageOr), ("actions_now", .jarr []), ("watch_out_for", .jarr []),
       ("safety_notes", .jarr []), ("rationale_brief", .jstr ""),
       ("confidence", .jstr "high"), ("needs_human_review", .jbool false)]
  else if loc = "" then
    finish
      [("headline", .jstr (tSel lang
          "Set location first (send city/village or share GPS), then tap Buy Inputs."
          "पहले स्थान सेट करें (शहर/गाँव या GPS भेजें) फिर खरीद लिंक दबाएँ।"
          "आधी ठिकाण सेट करा (शहर/गाव किंवा GPS) मग खरेदी लिंक दाबा.")),
       ("stage", .jstr stageOr), ("actions_now", .jarr []), ("watch_out_for", .jarr []),
       ("safety_notes", .jarr []), ("rationale_brief", .jstr ""),
       ("confidence", .jstr "high"), ("needs_human_review", .jbool false)]
  else
    match ora.buyRes loc crop with
    | none =>
      finish
        [("headline", .jstr (tSel lang
            "Buying links not available right now. Try again in a minute."
            "खरीद लिंक अभी उपलब्ध नहीं। 1 मिनट बाद फिर प्रयास करें।"
            "खरेदी लिंक्स आत्ता मिळत नाहीत. 1 मिनिटाने पुन्हा प्रयत्न करा.")),
         ("stage", .jstr stageOr), ("actions_now", .jarr []), ("watch_out_for", .jarr []),
         ("safety_notes", .jarr []), ("rationale_brief", .jstr ""),
         ("confidence", .jstr "medium"), ("needs_human_review", .jbool false)]
    | some ctx =>
      let seedL := tSel lang "Seeds" "बीज" "बियाणे"
      let fertL := tSel lang "Fertilizer" "उर्वरक" "खते"
      let protL := tSel lang "Crop protection" "फसल सुरक्षा" "पीक संरक्षण"
      let noteL := tSel lang "Tip: compare prices + seller ratings."
        "टिप: कीमत + रेटिंग तुलना करें।" "टिप: किंमत + रेटिंग तुलना करा."
      let urls := ctx.urls.take 6
      let bullets := ([seedL, seedL, fertL, fertL, protL, protL].zip urls).map
        (fun lu => lu.1 ++ ": " ++ lu.2)
      let titled := pyTitle crop
      let headline := tSel lang
        ("Buy inputs for " ++ titled ++ " (" ++ loc ++ ")")
        (titled ++ " के लिए खरीद लिंक (" ++ loc ++ ")")
        (titled ++ " साठी खरेदी लिंक्स (" ++ loc ++ ")")
      finish
        [("headline", .jstr headline), ("stage", .jstr stageOr),
         ("actions_now", .jarr ((if bullets.take 6 = [] then [noteL] else bullets.take 6).map .jstr)),
         ("watch_out_for", .jarr [.jstr (tSel lang
             "Avoid unknown sellers; check expiry date."
             "अनजान विक्रेता से बचें; एक्सपायरी देखें।"
             "अनोळखी विक्रेते टाळा; एक्सपायरी तपासा.")]),
         ("safety_notes", .jarr []), ("rationale_brief", .jstr noteL),
         ("confidence", .jstr "high"), ("needs_human_review", .jbool false)]

/-- One pass of the conditional edge: the `plan` node stamps
`last_node = "plan"`, then `_route` picks the next node. -/
def planRoute (state : GraphState) (now : Int) : GraphState × String :=
  let s := { state with last_node := some "plan" }
  (s, route s now)

/-- Dispatch one non-terminal node (none of them reads the clock: staleness
is evaluated by `_route` only). -/
def execNode (ora : ToolOracle) (_now : Int) (state : GraphState) : String → GraphState
  | "vision" => visionNode ora state
  | "weather" => weatherNode ora state
  | "web" => webNode ora state
  | "schemes" => schemesNode ora state
  | "market" => marketNode ora state
  | _ => state

/-- Dispatch one terminal node. -/
def execTerminal (ora : ToolOracle) (now : Int) (state : GraphState) : String → GraphState
  | "ask" => askNode state
  | "crop_reco" => cropRecoNode ora now state
  | "buy" => buyNode ora state
  | "advice" => adviceNode ora state
  | _ => state

/-- The `plan → route → node` loop of the compiled graph.  The fuel stands
for the LangGraph recursion limit (default 25, nowhere set to 8 in the
source): when it runs out LangGraph raises `GraphRecursionError`, modelled
by returning the state reached so far. -/
def driveFromPlan (ora : ToolOracle) (now : Int) : Nat → GraphState → GraphState
  | 0, state => state
  | fuel + 1, state =>
    let sd := planRoute state now
    if isTerminalStep sd.2 then execTerminal ora now sd.1 sd.2
    else driveFromPlan ora now fuel (execNode ora now sd.1 sd.2)

/-- The routing decisions one turn makes from `plan`, ending with the first
terminal decision (if one is reached within the fuel). -/
def routeDecisions (ora : ToolOracle) (now : Int) : Nat → GraphState → List String
  | 0, _ => []
  | fuel + 1, state =>
    let sd := planRoute state now
    if isTerminalStep sd.2 then [sd.2]
    else sd.2 :: routeDecisions ora now fuel (execNode ora now sd.1 sd.2)

/-- `CropAdvisorGraph.run_turn`: deep-copy the incoming state, append the
inbound user message, bump the turn counter, compact, then invoke the graph
(`intake` first, then the plan/route loop).  The source merges the graph
output over the working copy; as every node returns complete values for the
fields it names, that merge is the identity here. -/
def runTurn (ora : ToolOracle) (now : Int) (fuel : Nat) (state : GraphState)
    (userText : String) : GraphState :=
  let s := addUser state userText
  let s := { s with turn_count := s.turn_count + 1 }
  let s := { s with messages := compactList 16 s.messages }
  driveFromPlan ora now fuel (intakeNode ora s)

/-- The two objects a `run_turn` call can reach: the state object the caller
passed in, and the working object of the orchestrator once allocated.
`model_copy(deep=True)` allocates an independent working object, so every
in-place mutation of the turn (message appends, counter bump, compaction,
node updates) targets the working object only. -/
structure TurnObjects where
  callerState : GraphState
  workingState : Option GraphState := none

/-- `run_turn` replayed over the object store: the working copy is
allocated from the caller state, mutated, driven through the graph, and the
advanced state returned; the caller object is never assigned. -/
def runTurnObjects (ora : ToolOracle) (now : Int) (fuel : Nat) (m : TurnObjects)
    (userText : String) : TurnObjects × GraphState :=
  let w0 := m.callerState
  let w1 := addUser w0 userText
  let w2 := { w1 with turn_count := w1.turn_count + 1 }
  let w3 := { w2 with messages := compactList 16 w2.messages }
  let out := driveFromPlan ora now fuel (intakeNode ora w3)
  ({ m with workingState := some w3 }, out)

/-! ## Concrete states used by counterexamples and failing-input runs -/

/-- A state whose most recent user message is the crop-recommendation marker
while no location is known in the context. -/
def c2State : GraphState :=
  { messages := [{ role := "user", content := "__ACTION__:CROP_RECO" }] }

/-- A state whose most recent user message is the crop-recommendation marker
and whose context carries a location text. -/
def c2LocState : GraphState :=
  { messages := [{ role := "user", content := "__ACTION__:CROP_RECO" }]
    context := { location_text := some "Pune" } }

/-- A state whose most recent user message is the buy marker and whose
profile is otherwise empty. -/
def c6State : GraphState :=
  { messages := [{ role := "user", content := "__ACTION__:BUY" }] }

/-- A fully known profile (name, crop, stage, land size, location and
coordinates). -/
def fullProfile : FarmerContext :=
  { farmer_name := some "Ramesh", crop := some "rice", stage := "vegetative",
    land_size := some 2, land_unit := some "acres",
    location_text := some "Pune", lat := some 19, lon := some 75 }

/-- The oracle in which every provider and model call fails. -/
def failingOracle : ToolOracle := {}

/-- The C7 failing input: profile complete, weather snapshot absent, latest
message plain text — routing selects `weather`, and a failing provider
leaves the snapshot absent. -/
def c7State : GraphState :=
  { messages := [{ role := "user", content := "hello" }]
    context := fullProfile
    last_node := some "intake" }

/-- A weather snapshot stamped at a fixed instant. -/
def freshWeather : WeatherSnapshot :=
  { fetched_at_utc := "2026-01-01T00:00:00+00:00" }

/-- The clock value at which `freshWeather` was just fetched. -/
def c8Now : Int := civilSeconds 2026 1 1 0 0 0

/-- The C8 failing input: a full log of 16 messages, complete profile and a
fresh weather snapshot, so that routing goes straight to `advice`. -/
def c8State : GraphState :=
  { messages := List.replicate 16 { role := "assistant", content := "earlier" }
    context := fullProfile
    weather := some freshWeather }

/-! ## Theorems -/

/-- A string-field merge rule ignores an absent or blank update value. -/
theorem mergeStr_absent (old upd : Option String) (h : strPresent upd = false) :
    mergeStr old upd = old := by
  match upd with
  | none => rfl
  | some s =>
    simp only [strPresent, decide_eq_false_iff_not] at h
    simp only [mergeStr, if_neg h]

/-- The crop merge rule ignores an absent or blank update value. -/
theorem mergeCrop_absent (old upd : Option String) (h : strPresent upd = false) :
    mergeCrop old upd = old := by
  match upd with
  | none => rfl
  | some s =>
    simp only [strPresent, decide_eq_false_iff_not] at h
    simp only [mergeCrop, if_neg h]

/-- The stage merge rule ignores an absent or blank update value. -/
theorem mergeStage_absent (old : String) (upd : Option String) (h : strPresent upd = false) :
    mergeStage old upd = old := by
  match upd with
  | none => rfl
  | some s =>
    simp only [strPresent, decide_eq_false_iff_not] at h
    simp only [mergeStage, if_neg h]

/-- The dedup-append loop only ever appends to the existing list. -/
theorem dedupAppend_extends (ups : List String) :
    ∀ start : List String, ∃ extra, dedupAppend start ups = start ++ extra := by
  induction ups with
  | nil => exact fun start => ⟨[], by simp [dedupAppend]⟩
  | cons u us ih =>
    intro start
    unfold dedupAppend at ih ⊢
    simp only [List.foldl_cons]
    by_cases h : pyTrim u ≠ "" ∧ start.all (fun x => pyLower x ≠ pyLower (pyTrim u))
    · obtain ⟨e, he⟩ := ih (start ++ [pyTrim u])
      refine ⟨pyTrim u :: e, ?_⟩
      simp only [if_pos h] at he ⊢
      simpa [List.append_assoc] using he
    · obtain ⟨e, he⟩ := ih start
      exact ⟨e, by simp only [if_neg h]; exact he⟩

/-- The urgency part of `_merge_observation`, unfolded. -/
theorem mergeObservation_urgency (obs : Observation) (u : IntakeExtraction) :
    (mergeObservation obs u).urgency =
      (if strTruthy u.urgency then
        if pyLower (pyTrim (strOrEmpty u.urgency)) ∈ ["low", "medium", "high"] then
          (if urgencyOrder (pyLower (pyTrim (strOrEmpty u.urgency))) > urgencyOrder obs.urgency
            then pyLower (pyTrim (strOrEmpty u.urgency)) else obs.urgency)
        else obs.urgency
      else obs.urgency) := rfl

/-- C1: a field that is absent, `None`, or blank after trimming in the
extraction update leaves the merged farmer context unchanged at that field;
the observation merge only appends to the symptom and pest lists and keeps
the urgency when the update urgency is absent. -/
theorem claim1_merge_nondestructive (c : FarmerContext) (obs : Observation)
    (u : IntakeExtraction) :
    (strPresent u.farmer_name = false → (mergeContext c u).farmer_name = c.farmer_name) ∧
    (u.land_size = none → (mergeContext c u).land_size = c.land_size) ∧
    (strPresent u.land_unit = false → (mergeContext c u).land_unit = c.land_unit) ∧
    (strPresent u.crop = false → (mergeContext c u).crop = c.crop) ∧
    (strPresent u.stage = false → (mergeContext c u).stage = c.stage) ∧
    (strPresent u.location_text = false → (mergeContext c u).location_text = c.location_text) ∧
    (strPresent u.sowing_date = false → (mergeContext c u).sowing_date = c.sowing_date) ∧
    (strPresent u.irrigation = false → (mergeContext c u).irrigation = c.irrigation) ∧
    (strPresent u.soil_type = false → (mergeContext c u).soil_type = c.soil_type) ∧
    (strPresent u.notes = false → (mergeContext c u).notes = c.notes) ∧
    ((mergeContext c u).lat = c.lat ∧ (mergeContext c u).lon = c.lon ∧
      (mergeContext c u).language = c.language) ∧
    (∃ extra, (mergeObservation obs u).symptoms = obs.symptoms ++ extra) ∧
    (∃ extra, (mergeObservation obs u).pests_seen = obs.pests_seen ++ extra) ∧
    (strTruthy u.urgency = false → (mergeObservation obs u).urgency = obs.urgency) := by
  refine ⟨?_, ?_, ?_, ?_, ?_, ?_, ?_, ?_, ?_, ?_, ⟨rfl, rfl, rfl⟩, ?_, ?_, ?_⟩
  · exact fun h => by simp [mergeContext, mergeStr_absent _ _ h]
  · intro h
    simp only [mergeContext]
    rw [h]
  · exact fun h => by simp [mergeContext, mergeStr_absent _ _ h]
  · exact fun h => by simp [mergeContext, mergeCrop_absent _ _ h]
  · exact fun h => by simp [mergeContext, mergeStage_absent _ _ h]
  · exact fun h => by simp [mergeContext, mergeStr_absent _ _ h]
  · exact fun h => by simp [mergeContext, mergeStr_absent _ _ h]
  · exact fun h => by simp [mergeContext, mergeStr_absent _ _ h]
  · exact fun h => by simp [mergeContext, mergeStr_absent _ _ h]
  · exact fun h => by simp [mergeContext, mergeStr_absent _ _ h]
  · exact dedupAppend_extends u.symptoms obs.symptoms
  · exact dedupAppend_extends u.pests_seen obs.pests_seen
  · intro h
    rw [mergeObservation_urgency, if_neg (by simp [h])]

/-- Witness for C1 at a concrete context, observation and empty update. -/
theorem claim1_witness :
    (mergeContext { farmer_name := some "Ramesh", crop := some "rice" } {}).farmer_name =
      some "Ramesh" ∧
    (mergeObservation { symptoms := ["leaf spots"], urgency := "medium" } {}).urgency =
      "medium" := by
  obtain ⟨h1, _, _, _, _, _, _, _, _, _, _, _, _, h14⟩ :=
    claim1_merge_nondestructive { farmer_name := some "Ramesh", crop := some "rice" }
      { symptoms := ["leaf spots"], urgency := "medium" } {}
  exact ⟨h1 (by decide), h14 (by decide)⟩

/-- C5: with a stored urgency among the three levels, a merge never lowers
the urgency ordinal, and a recognised update urgency yields exactly the
ordinal maximum of the two levels (the result being one of them). -/
theorem claim5_urgency_monotonicity (obs : Observation) (u : IntakeExtraction)
    (_ho : obs.urgency = "low" ∨ obs.urgency = "medium" ∨ obs.urgency = "high") :
    urgencyOrder obs.urgency ≤ urgencyOrder (mergeObservation obs u).urgency ∧
    (∀ uu, u.urgency = some uu → uu ≠ "" →
      ∀ v, v = pyLower (pyTrim uu) →
      (v = "low" ∨ v = "medium" ∨ v = "high") →
      (urgencyOrder (mergeObservation obs u).urgency =
          max (urgencyOrder obs.urgency) (urgencyOrder v) ∧
        ((mergeObservation obs u).urgency = obs.urgency ∨
          (mergeObservation obs u).urgency = v))) := by
  constructor
  · rw [mergeObservation_urgency]
    split
    · split
      · split
        · next hgt => exact Nat.le_of_lt hgt
        · exact Nat.le_refl _
      · exact Nat.le_refl _
    · exact Nat.le_refl _
  · intro uu huu hne v hv hvmem
    rw [mergeObservation_urgency]
    rw [huu]
    simp only [strOrEmpty, strTruthy, ← hv]
    rw [if_pos (by simp [hne])]
    rw [if_pos (by simpa using hvmem)]
    split
    · next hgt =>
      exact ⟨by rw [Nat.max_eq_right (Nat.le_of_lt hgt)], Or.inr rfl⟩
    · next hle =>
      exact ⟨by rw [Nat.max_eq_left (Nat.not_lt.mp hle)], Or.inl rfl⟩

/-- Witness for C5: merging update urgency `"High "` over stored urgency
`"medium"` yields the ordinal maximum. -/
theorem claim5_witness :
    urgencyOrder (mergeObservation { urgency := "medium" } { urgency := some "High " }).urgency =
      max (urgencyOrder "medium") (urgencyOrder "high") ∧
    ((mergeObservation { urgency := "medium" } { urgency := some "High " }).urgency = "medium" ∨
      (mergeObservation { urgency := "medium" } { urgency := some "High " }).urgency = "high") :=
  (claim5_urgency_monotonicity { urgency := "medium" } { urgency := some "High " }
    (Or.inr (Or.inl rfl))).2 "High " rfl (by decide) "high" (by decide) (by decide)

/-- C4: each staleness evaluator returns true exactly when its snapshot is
absent, its timestamp fails to parse, or the age strictly exceeds the
category threshold (weather 6 h, web 24 h, schemes 7 d, market 12 h); an age
exactly equal to the threshold is not stale. -/
theorem claim4_staleness (s : GraphState) (now : Int) :
    (s.weather = none → isWeatherStale s now = true) ∧
    (∀ w, s.weather = some w → parseIsoDt w.fetched_at_utc = none →
      isWeatherStale s now = true) ∧
    (∀ w t, s.weather = some w → parseIsoDt w.fetched_at_utc = some t →
      (isWeatherStale s now = true ↔ now - t > 6 * 3600)) ∧
    (∀ w t, s.weather = some w → parseIsoDt w.fetched_at_utc = some t →
      now - t = 6 * 3600 → isWeatherStale s now = false) ∧
    (s.web = none → isWebStale s now = true) ∧
    (∀ w, s.web = some w → parseIsoDt w.fetched_at_utc = none →
      isWebStale s now = true) ∧
    (∀ w t, s.web = some w → parseIsoDt w.fetched_at_utc = some t →
      (isWebStale s now = true ↔ now - t > 24 * 3600)) ∧
    (∀ w t, s.web = some w → parseIsoDt w.fetched_at_utc = some t →
      now - t = 24 * 3600 → isWebStale s now = false) ∧
    (s.schemes = none → isSchemesStale s now = true) ∧
    (∀ w, s.schemes = some w → parseIsoDt w.fetched_at_utc = none →
      isSchemesStale s now = true) ∧
    (∀ w t, s.schemes = some w → parseIsoDt w.fetched_at_utc = some t →
      (isSchemesStale s now = true ↔ now - t > 7 * 86400)) ∧
    (∀ w t, s.schemes = some w → parseIsoDt w.fetched_at_utc = some t →
      now - t = 7 * 86400 → isSchemesStale s now = false) ∧
    (s.market = none → isMarketStale s now = true) ∧
    (∀ w, s.market = some w → parseIsoDt w.fetched_at_utc = none →
      isMarketStale s now = true) ∧
    (∀ w t, s.market = some w → parseIsoDt w.fetched_at_utc = some t →
      (isMarketStale s now = true ↔ now - t > 12 * 3600)) ∧
    (∀ w t, s.market = some w → parseIsoDt w.fetched_at_utc = some t →
      now - t = 12 * 3600 → isMarketStale s now = false) := by
  refine ⟨?_, ?_, ?_, ?_, ?_, ?_, ?_, ?_, ?_, ?_, ?_, ?_, ?_, ?_, ?_, ?_⟩
  · intro h; simp [isWeatherStale, h]
  · intro w hw hp; simp [isWeatherStale, hw, hp]
  · intro w t hw hp; simp [isWeatherStale, hw, hp]
  · intro w t hw hp he; simp [isWeatherStale, hw, hp, he]
  · intro h; simp [isWebStale, h]
  · intro w hw hp; simp [isWebStale, hw, hp]
  · intro w t hw hp; simp [isWebStale, hw, hp]
  · intro w t hw hp he; simp [isWebStale, hw, hp, he]
  · intro h; simp [isSchemesStale, h]
  · intro w hw hp; simp [isSchemesStale, hw, hp]
  · intro w t hw hp; simp [isSchemesStale, hw, hp]
  · intro w t hw hp he; simp [isSchemesStale, hw, hp, he]
  · intro h; simp [isMarketStale, h]
  · intro w hw hp; simp [isMarketStale, hw, hp]
  · intro w t hw hp; simp [isMarketStale, hw, hp]
  · intro w t hw hp he; simp [isMarketStale, hw, hp, he]

/-- Witness for C4: an absent weather snapshot is stale, and a market
snapshot aged exactly its 12-hour threshold is not. -/
theorem claim4_witness :
    isWeatherStale { } 0 = true ∧
    isMarketStale
      { market := some { fetched_at_utc := "2026-01-01T00:00:00+00:00" } }
      (civilSeconds 2026 1 1 0 0 0 + 12 * 3600) = false := by
  constructor
  · exact (claim4_staleness { } 0).1 rfl
  · exact (claim4_staleness
      { market := some { fetched_at_utc := "2026-01-01T00:00:00+00:00" } }
      (civilSeconds 2026 1 1 0 0 0 + 12 * 3600)).2.2.2.2.2.2.2.2.2.2.2.2.2.2.2
      { fetched_at_utc := "2026-01-01T00:00:00+00:00" }
      (civilSeconds 2026 1 1 0 0 0) rfl (by decide) (by ring)

/-- C2 is refuted: with the crop-recommendation marker as the latest user
message but no known location, routing returns `ask`, not `crop_reco`. -/
theorem claim2_counterexample :
    lastUserText c2State = ACTION_CROP_RECO ∧
    route c2State 0 ≠ "crop_reco" ∧ route c2State 0 = "ask" := by decide

/-- C2 as amended: the crop-recommendation marker routes to `crop_reco`
whenever a location is known (coordinates or a non-blank location text),
with no further condition on whether the crop is set. -/
theorem claim2_marker_with_location_routes (s : GraphState) (now : Int)
    (h : lastUserText s = ACTION_CROP_RECO) (hl : hasLocation s = true) :
    route s now = "crop_reco" := by
  unfold route
  rw [h]
  rw [if_neg (by decide)]
  rw [if_pos ⟨rfl, hl⟩]

/-- Witness for the amended C2 at a concrete state carrying the marker and a
location text. -/
theorem claim2_witness : route c2LocState 0 = "crop_reco" :=
  claim2_marker_with_location_routes c2LocState 0 (by decide) (by decide)

/-- C6: the buy marker as the latest user message routes to `buy` no matter
what else the state contains (rule 1 precedes every other rule). -/
theorem claim6_buy_marker_first (s : GraphState) (now : Int)
    (h : lastUserText s = ACTION_BUY) :
    route s now = "buy" := by
  unfold route
  rw [h]
  rw [if_pos rfl]

/-- Witness for C6 at a concrete state with the buy marker and an entirely
missing profile. -/
theorem claim6_witness : route c6State 0 = "buy" :=
  claim6_buy_marker_first c6State 0 (by decide)

/-- Any value produced by `List.findSome?` satisfies every property the
generating function guarantees. -/
theorem findSome?_property {α β : Type} (f : α → Option β) (P : β → Prop)
    (hf : ∀ a b, f a = some b → P b) :
    ∀ (l : List α) (b : β), l.findSome? f = some b → P b := by
  intro l
  induction l with
  | nil => intro b h; simp [List.findSome?_nil] at h
  | cons a l ih =>
    intro b h
    rw [List.findSome?_cons] at h
    cases hfa : f a with
    | some v =>
      rw [hfa] at h
      exact (Option.some.inj h) ▸ hf a v hfa
    | none =>
      rw [hfa] at h
      exact ih b h

/-- Truncation to 220 characters never yields a longer string. -/
theorem truncate220_length (r : String) :
    (if r.length > 220 then String.mk (r.data.take 220) else r).length ≤ 220 := by
  split
  · next _ =>
    show (r.data.take 220).length ≤ 220
    rw [List.length_take]
    exact Nat.min_le_left _ _
  · next h => exact Nat.le_of_not_lt h

/-- The confidence selector yields one of the three levels. -/
theorem confSel_mem (c0 : String) :
    (if c0 = "low" ∨ c0 = "medium" ∨ c0 = "high" then c0 else "medium") = "low" ∨
    (if c0 = "low" ∨ c0 = "medium" ∨ c0 = "high" then c0 else "medium") = "medium" ∨
    (if c0 = "low" ∨ c0 = "medium" ∨ c0 = "high" then c0 else "medium") = "high" := by
  split
  · next h => exact h
  · exact Or.inr (Or.inl rfl)

/-- The confidence field of a coerced advisory, unfolded. -/
theorem spa_confidence (data : List (String × JVal)) :
    (safeParseAdvisory data).confidence =
      (if pyLower (pyTrim (pyStr (jGetOr data "confidence" (.jstr "medium")))) = "low" ∨
          pyLower (pyTrim (pyStr (jGetOr data "confidence" (.jstr "medium")))) = "medium" ∨
          pyLower (pyTrim (pyStr (jGetOr data "confidence" (.jstr "medium")))) = "high"
        then pyLower (pyTrim (pyStr (jGetOr data "confidence" (.jstr "medium"))))
        else "medium") := rfl

/-- The review flag of a coerced advisory, unfolded. -/
theorem spa_needs (data : List (String × JVal)) :
    (safeParseAdvisory data).needs_human_review =
      (match jGet data "needs_human_review" with
        | some (.jstr s) => decide
            (pyLower (pyTrim s) = "true" ∨ pyLower (pyTrim s) = "yes" ∨ pyLower (pyTrim s) = "1")
        | some (.jbool b) => b
        | _ => false) := rfl

/-- The issue field of a coerced image diagnosis, unfolded. -/
theorem cid_issue (data : List (String × JVal)) :
    (coerceImageDiagnosis data).issue =
      (match (["issue", "problem", "disease", "diagnosis", "issue_detected",
               "observation"].findSome? fun k =>
          match jGet data k with
          | some (.jstr v) => if pyTrim v ≠ "" then some (pyTrim v) else none
          | _ => none) with
        | some v => v
        | none => "Unclear issue from image (needs clearer photo or more details).") := rfl

/-- The issue text of a coerced image diagnosis is never empty. -/
theorem cid_issue_ne (data : List (String × JVal)) :
    (coerceImageDiagnosis data).issue ≠ "" := by
  rw [cid_issue]
  cases hi : (["issue", "problem", "disease", "diagnosis", "issue_detected",
      "observation"].findSome? fun k =>
        match jGet data k with
        | some (.jstr v) => if pyTrim v ≠ "" then some (pyTrim v) else none
        | _ => none) with
  | some v =>
    have hv : v ≠ "" := by
      refine findSome?_property _ (· ≠ "") ?_ _ v hi
      intro a b hab
      cases hg : jGet data a with
      | none => rw [hg] at hab; simp at hab
      | some jv =>
        rw [hg] at hab
        cases jv with
        | jstr w =>
          have hab2 : (if pyTrim w ≠ "" then some (pyTrim w) else none) = some b := hab
          by_cases hw : pyTrim w ≠ ""
          · rw [if_pos hw] at hab2
            exact (Option.some.inj hab2) ▸ hw
          · rw [if_neg hw] at hab2
            simp at hab2
        | jnull => simp at hab
        | jbool b => simp at hab
        | jnum q => simp at hab
        | jarr xs => simp at hab
        | jobj fs => simp at hab
    simpa using hv
  | none => decide

/-- C3 is refuted on the advisory coercer: a bullet-delimited string list
field is not split at the bullet (only newlines split there). -/
theorem claim3_counterexample :
    (safeParseAdvisory [("actions_now", JVal.jstr "one• two")]).actions_now = ["one• two"] ∧
    (safeParseAdvisory [("actions_now", JVal.jstr "one• two")]).actions_now ≠
      ["one", "two"] := by decide

/-- C3 as amended: the coercers are total on objects and cap
actions at 5, cautions at 3, safety notes at 2 (diagnosis causes/actions at
3, cautions at 2), truncate the rationale to 220 characters, default a
missing confidence to medium and keep it in the three-level enumeration,
map the strings true/yes/1 to an affirmative review flag, and replace an
empty headline (or diagnosis issue) by a fixed non-empty placeholder;
string-valued list fields are split at newlines by the advisory coercer and
at newlines, bullets and hyphens by the image coercer. -/
theorem claim3_coercion_robustness (data d2 : List (String × JVal)) :
    ((safeParseAdvisory data).actions_now.length ≤ 5 ∧
     (safeParseAdvisory data).watch_out_for.length ≤ 3 ∧
     (safeParseAdvisory data).safety_notes.length ≤ 2 ∧
     (safeParseAdvisory data).rationale_brief.length ≤ 220 ∧
     ((safeParseAdvisory data).confidence = "low" ∨
      (safeParseAdvisory data).confidence = "medium" ∨
      (safeParseAdvisory data).confidence = "high") ∧
     (safeParseAdvisory data).headline ≠ "" ∧
     (jGet data "confidence" = none → (safeParseAdvisory data).confidence = "medium") ∧
     (∀ b, jGet data "needs_human_review" = some (.jstr b) →
        (pyLower (pyTrim b) = "true" ∨ pyLower (pyTrim b) = "yes" ∨ pyLower (pyTrim b) = "1") →
        (safeParseAdvisory data).needs_human_review = true)) ∧
    ((coerceImageDiagnosis d2).likely_causes.length ≤ 3 ∧
     (coerceImageDiagnosis d2).actions_now.length ≤ 3 ∧
     (coerceImageDiagnosis d2).watch_out_for.length ≤ 2 ∧
     ((coerceImageDiagnosis d2).confidence = "low" ∨
      (coerceImageDiagnosis d2).confidence = "medium" ∨
      (coerceImageDiagnosis d2).confidence = "high") ∧
     (coerceImageDiagnosis d2).issue ≠ "") ∧
    ((safeParseAdvisory [("actions_now", JVal.jstr "a\nb\nc\nd\nd\nf")]).actions_now =
        ["a", "b", "c", "d", "d"] ∧
     (safeParseAdvisory [("headline", JVal.jstr "")]).headline = "Advisory update" ∧
     (safeParseAdvisory [("confidence", JVal.jstr "banana")]).confidence = "medium" ∧
     (safeParseAdvisory [("needs_human_review", JVal.jstr " YES ")]).needs_human_review = true ∧
     (coerceImageDiagnosis [("actions_now", JVal.jstr "a• b- c\nd")]).actions_now =
        ["a", "b", "c"]) := by
  refine ⟨⟨?_, ?_, ?_, ?_, ?_, ?_, ?_, ?_⟩, ⟨?_, ?_, ?_, ?_, ?_⟩, by decide⟩
  · show ((advisoryListField (jGetOr data "actions_now" (.jarr []))).take 5).length ≤ 5
    rw [List.length_take]; exact Nat.min_le_left _ _
  · show ((advisoryListField (jGetOr data "watch_out_for" (.jarr []))).take 3).length ≤ 3
    rw [List.length_take]; exact Nat.min_le_left _ _
  · show ((advisoryListField (jGetOr data "safety_notes" (.jarr []))).take 2).length ≤ 2
    rw [List.length_take]; exact Nat.min_le_left _ _
  · exact truncate220_length _
  · rw [spa_confidence]; exact confSel_mem _
  · show (if pyTrim (pyStr (jGetOr data "headline" (.jstr ""))) = ""
        then "Advisory update" else pyTrim (pyStr (jGetOr data "headline" (.jstr "")))) ≠ ""
    split
    · decide
    · next h => exact h
  · intro h
    rw [spa_confidence]
    have hg : jGetOr data "confidence" (JVal.jstr "medium") = JVal.jstr "medium" := by
      simp [jGetOr, h]
    rw [hg]
    decide
  · intro b hb hmem
    rw [spa_needs, hb]
    exact decide_eq_true hmem
  · show ((splitLinesToList (jGetOr d2 "likely_causes" (jGetOr d2 "causes" .jnull))).take 3).length ≤ 3
    rw [List.length_take]; exact Nat.min_le_left _ _
  · show ((splitLinesToList (jGetOr d2 "actions_now"
        (jGetOr d2 "actions" (jGetOr d2 "remedy" .jnull)))).take 3).length ≤ 3
    rw [List.length_take]; exact Nat.min_le_left _ _
  · show ((splitLinesToList (jGetOr d2 "watch_out_for"
        (jGetOr d2 "precautions" (jGetOr d2 "watch" .jnull)))).take 2).length ≤ 2
    rw [List.length_take]; exact Nat.min_le_left _ _
  · show ((if pyLower (pyTrim (pyStr (jGetOr d2 "confidence" (.jstr "medium")))) = "low" ∨
          pyLower (pyTrim (pyStr (jGetOr d2 "confidence" (.jstr "medium")))) = "medium" ∨
          pyLower (pyTrim (pyStr (jGetOr d2 "confidence" (.jstr "medium")))) = "high"
        then pyLower (pyTrim (pyStr (jGetOr d2 "confidence" (.jstr "medium"))))
        else "medium") = "low" ∨ _ ∨ _)
    exact confSel_mem _
  · exact cid_issue_ne d2

/-- Witness for C3 at concrete inputs: a missing confidence defaults to
medium, and an affirmative review-flag string is accepted. -/
theorem claim3_witness :
    (safeParseAdvisory [("headline", JVal.jstr "x")]).confidence = "medium" ∧
    (safeParseAdvisory [("needs_human_review", JVal.jstr "1")]).needs_human_review = true := by
  constructor
  · exact (claim3_coercion_robustness [("headline", JVal.jstr "x")] []).1.2.2.2.2.2.2.1 rfl
  · exact (claim3_coercion_robustness [("needs_human_review", JVal.jstr "1")] []).1.2.2.2.2.2.2.2
      "1" rfl (by decide)

/-- C7 is refuted on the failing-provider path it includes: from a
profile-complete state with an absent weather snapshot and a weather
provider that fails every call, eight consecutive routing iterations all
select `weather` — the executed step keeps returning the previous,
still-stale snapshot, so no terminal step is reached within the claimed
ceiling of 8 (the source contains no iteration ceiling at all). -/
theorem claim7_failing_provider_loops :
    routeDecisions failingOracle 0 8 c7State =
      ["weather", "weather", "weather", "weather",
       "weather", "weather", "weather", "weather"] ∧
    isTerminalStep "weather" = false := by decide

/-- C8 is refuted: with a full 16-entry log, a complete profile, a fresh
weather snapshot and a failing generation call, the `advice` fallback path
appends its assistant reply without compacting, so the state returned by
`run_turn` holds 17 messages. -/
theorem claim8_fallback_exceeds_cap :
    c8State.messages.length = 16 ∧
    (runTurn failingOracle c8Now 25 c8State "hello").messages.length = 17 ∧
    (runTurn failingOracle c8Now 25 c8State "hello").messages.getLast? =
      some { role := "assistant",
             content := "Send crop + stage + location (or upload a clear photo)." } := by
  decide

/-- C9: `run_turn` never mutates the caller state object in place — the
caller-visible object after the call equals the one passed in, and the
returned state is the advanced deep copy, a function of the input value
alone. -/
theorem claim9_no_inplace_mutation (ora : ToolOracle) (now : Int) (fuel : Nat)
    (m : TurnObjects) (text : String) :
    (runTurnObjects ora now fuel m text).1.callerState = m.callerState ∧
    (runTurnObjects ora now fuel m text).2 = runTurn ora now fuel m.callerState text :=
  ⟨rfl, rfl⟩

/-- Witness for C9 at a concrete state and turn. -/
theorem claim9_witness :
    (runTurnObjects failingOracle 0 1 { callerState := c8State } "hi").1.callerState =
      c8State :=
  (claim9_no_inplace_mutation failingOracle 0 1 { callerState := c8State } "hi").1

/-- C10: `extract_lat_lon` yields either no coordinates or an in-range pair
(latitude within ±90, longitude within ±180), and consequently the intake
injection into a context without coordinates leaves it unchanged or writes
an in-range pair. -/
theorem claim10_latlon_in_range (text : String) :
    (extractLatLon text = (none, none) ∨
      ∃ la lo, extractLatLon text = (some la, some lo) ∧
        -90 ≤ la ∧ la ≤ 90 ∧ -180 ≤ lo ∧ lo ≤ 180) ∧
    (∀ c : FarmerContext, c.lat = none → c.lon = none →
      injectLatLon c text = c ∨
      ∃ la lo, (injectLatLon c text).lat = some la ∧ (injectLatLon c text).lon = some lo ∧
        -90 ≤ la ∧ la ≤ 90 ∧ -180 ≤ lo ∧ lo ≤ 180) := by
  have main : extractLatLon text = (none, none) ∨
      ∃ la lo, extractLatLon text = (some la, some lo) ∧
        -90 ≤ la ∧ la ≤ 90 ∧ -180 ≤ lo ∧ lo ≤ 180 := by
    unfold extractLatLon
    split
    · exact Or.inl rfl
    · cases hs : searchLatLon (trimChars text.data) with
      | none => exact Or.inl rfl
      | some p =>
        obtain ⟨la, lo⟩ := p
        by_cases hr : -90 ≤ la ∧ la ≤ 90 ∧ -180 ≤ lo ∧ lo ≤ 180
        · refine Or.inr ⟨la, lo, ?_, hr.1, hr.2.1, hr.2.2.1, hr.2.2.2⟩
          show (if -90 ≤ la ∧ la ≤ 90 ∧ -180 ≤ lo ∧ lo ≤ 180
              then ((some la : Option Rat), (some lo : Option Rat))
              else (none, none)) = (some la, some lo)
          rw [if_pos hr]
        · refine Or.inl ?_
          show (if -90 ≤ la ∧ la ≤ 90 ∧ -180 ≤ lo ∧ lo ≤ 180
              then ((some la : Option Rat), (some lo : Option Rat))
              else (none, none)) = (none, none)
          rw [if_neg hr]
  refine ⟨main, ?_⟩
  intro c hlat hlon
  unfold injectLatLon
  rcases main with h | ⟨la, lo, heq, h1, h2, h3, h4⟩
  · rw [h]
    exact Or.inl rfl
  · rw [heq]
    refine Or.inr ⟨la, lo, ?_, ?_, h1, h2, h3, h4⟩
    · simp [hlat, ratTruthy]
    · simp [hlon, ratTruthy]

/-- Witness for C10: injecting the coordinates parsed from a concrete text
into an empty context. -/
theorem claim10_witness :
    injectLatLon {} "19 75" = ({} : FarmerContext) ∨
    ∃ la lo, (injectLatLon ({} : FarmerContext) "19 75").lat = some la ∧
      (injectLatLon ({} : FarmerContext) "19 75").lon = some lo ∧
      -90 ≤ la ∧ la ≤ 90 ∧ -180 ≤ lo ∧ lo ≤ 180 :=
  (claim10_latlon_in_range "19 75").2 {} rfl rfl

end DhartiQ
